import Mathlib

/-! Shallow embedding of the EvidenceFinder client (a Next.js single-page UI).

The embedded code consists of:
* `src/components/EvidenceCard.tsx` — the pure formatting helpers
  `getRelationIcon` and `getDomain`, and the source-type badge text;
* the page component (`Home`) — search session state (`handleSearch`),
  filter toggling (`toggleSourceType`), the loading-message rotator, the
  source-type catalog fetch, and the conditional rendering of the page.

JavaScript strings are modelled by Lean `String`; JS arrays by `List`;
`null`-able values by `Option`.  `String.prototype.replace` with a string
pattern (which replaces only the first occurrence) is modelled by
`jsReplaceFirst` below.
-/

namespace EvidenceFinder

/-- Splits `s` at the first occurrence of `pat`: returns
`some (pre, post)` with `s = pre ++ pat ++ post` and `pat` not occurring
earlier, or `none` when `pat` does not occur in `s`. -/
def splitFirst (pat : List Char) : List Char → Option (List Char × List Char)
  | [] => if pat = [] then some ([], []) else none
  | c :: rest =>
    if pat.isPrefixOf (c :: rest) then
      some ([], (c :: rest).drop pat.length)
    else
      match splitFirst pat rest with
      | some (pre, post) => some (c :: pre, post)
      | none => none

/-- Replace the first occurrence of `pat` in `s` by `rep`; `s` unchanged
when `pat` does not occur. -/
def replaceFirstL (s pat rep : List Char) : List Char :=
  match splitFirst pat s with
  | some (pre, post) => pre ++ rep ++ post
  | none => s

/-- Model of JavaScript `s.replace(pat, rep)` with a string `pat`:
only the first occurrence of `pat` is replaced. -/
def jsReplaceFirst (s pat rep : String) : String :=
  String.mk (replaceFirstL s.data pat.data rep.data)

/-- `true` iff `pat` occurs as a contiguous substring of `s`; models
JavaScript `s.includes(pat)`. -/
def strContains (s pat : String) : Bool :=
  (splitFirst pat.data s.data).isSome

/-- Model of JavaScript `s.toLowerCase()` (ASCII range, which is all this
application's inputs use): lower-case every character. -/
def jsToLowerCase (s : String) : String :=
  String.mk (s.data.map Char.toLower)

/-- Model of JavaScript `s.trim()`: drop whitespace from both ends. -/
def jsTrim (s : String) : String :=
  String.mk (((s.data.dropWhile Char.isWhitespace).reverse.dropWhile Char.isWhitespace).reverse)

/-- Model of the WHATWG URL parser as used by `new URL(url).hostname`,
restricted to the absolute `scheme://[userinfo@]host[:port][/path]` forms
this application handles: returns the (lower-cased) host, or `none` when
the string is not a parseable absolute URL of that shape (in which case
`new URL` throws). -/
def urlHostname (s : String) : Option String :=
  match splitFirst "://".data s.data with
  | none => none
  | some (scheme, rest) =>
    match scheme with
    | [] => none
    | c :: cs =>
      if c.isAlpha && cs.all (fun d => d.isAlphanum || d = '+' || d = '-' || d = '.') then
        let authority := rest.takeWhile (fun d => d ≠ '/' && d ≠ '?' && d ≠ '#')
        let afterUser :=
          match splitFirst ['@'] authority with
          | some (_, h) => h
          | none => authority
        let host := afterUser.takeWhile (fun d => d ≠ ':')
        if host = [] then none else some (String.mk (host.map Char.toLower))
      else none

/-- `getDomain` from `EvidenceCard.tsx`:
`try { return new URL(url).hostname.replace('www.', '') } catch { return 'source' }`. -/
def getDomain (url : String) : String :=
  match urlHostname url with
  | some domain => jsReplaceFirst domain "www." ""
  | none => "source"

/-- The spec's reading of `domainOf`: the host with a *leading* `"www."`
prefix stripped if present (compared against `getDomain`, which replaces
the first occurrence anywhere). -/
def stripLeadingWWW (host : String) : String :=
  if "www.".data.isPrefixOf host.data then String.mk (host.data.drop 4) else host

/-- `getRelationIcon` from `EvidenceCard.tsx`: lower-case the relation,
then test substrings in priority order. -/
def getRelationIcon (relation : String) : String :=
  let lowerRelation := jsToLowerCase relation
  if strContains lowerRelation "support" then "✓"
  else if strContains lowerRelation "contradict" then "✗"
  else if strContains lowerRelation "context" then "📋"
  else if strContains lowerRelation "neutral" then "〰️"
  else "🔗"

/-- The spec's description of `relationIcon`: the first matching entry of
the fixed priority table wins, generic link symbol otherwise. -/
def relationTable : List (String × String) :=
  [("support", "✓"), ("contradict", "✗"), ("context", "📋"), ("neutral", "〰️")]

/-- Spec-side `relationIcon`: scan the priority table for the first
pattern occurring in the lower-cased input. -/
def relationIconSpec (relation : String) : String :=
  match relationTable.find? (fun p => strContains (jsToLowerCase relation) p.1) with
  | some p => p.2
  | none => "🔗"

/-- Badge text rendered by `EvidenceCard`: `source_type.replace('_', ' ')`
(JavaScript `replace` with a string pattern rewrites only the first
occurrence). -/
def sourceBadgeText (source_type : String) : String :=
  jsReplaceFirst source_type "_" " "

/-- One evidence record, as in the `EvidenceCardData` interface of the
page component (and the `EvidenceCardProps` of `EvidenceCard.tsx`). -/
structure EvidenceCardData where
  id : String
  title : String
  link : String
  snippet : String
  description : String
  relation_to_claim : String
  source_type : String
  relevance_score : Rat
  deriving Repr, DecidableEq

/-- The `SearchResponse` interface of the page component. -/
structure SearchResponse where
  query : String
  evidence_cards : List EvidenceCardData
  total_results : Nat
  deriving Repr, DecidableEq

/-- The `SourceType` interface of the page component. -/
structure SourceType where
  value : String
  label : String
  deriving Repr, DecidableEq

/-- The `useState` hooks of the `Home` component (the loading-message
rotator's state is modelled separately, see `rotatorIndexAfter`). -/
structure HomeState where
  query : String
  results : Option SearchResponse
  isLoading : Bool
  error : Option String
  sourceTypes : List SourceType
  selectedTypes : List String
  hasSearched : Bool
  deriving Repr, DecidableEq

/-- The `Home` component's initial state. -/
def initialHomeState : HomeState :=
  { query := ""
  , results := none
  , isLoading := false
  , error := none
  , sourceTypes := []
  , selectedTypes := []
  , hasSearched := false }

/-- The JSON body `handleSearch` posts to `/api/search`:
`{ query: query.trim(), source_types: selectedTypes.length > 0 ? selectedTypes : null }`. -/
structure SearchRequest where
  query : String
  source_types : Option (List String)
  deriving Repr, DecidableEq

/-- The synchronous head of `handleSearch`: the empty-trimmed-query guard
(`if (!query.trim()) return;`), then `setIsLoading(true)`,
`setError(null)`, `setHasSearched(true)` and the single `fetch` to
`/api/search`.  Returns the updated state together with the request the
fetch carries (`none` when no network call is made). -/
def handleSearchStart (s : HomeState) : HomeState × Option SearchRequest :=
  if jsTrim s.query = "" then (s, none)
  else
    ({ s with isLoading := true, error := none, hasSearched := true },
     some { query := jsTrim s.query
          , source_types := if s.selectedTypes.length > 0 then some s.selectedTypes else none })

/-- How the awaited `fetch` of `handleSearch` can settle:
a 2xx response with a parsed body, a non-2xx response
(`!response.ok`, which makes the code throw
`Error('Search failed. Please try again.')`), an exception carrying an
`Error` object (failed transport, malformed JSON), or a thrown value that
is not an `Error` instance. -/
inductive FetchOutcome where
  | ok (data : SearchResponse)
  | httpError
  | thrown (msg : String)
  | thrownNonError
  deriving Repr, DecidableEq

/-- The tail of `handleSearch`: the `try`/`catch`/`finally` that applies
the settled fetch outcome to the state (`setResults` on success;
`setError(err.message or fallback)` and `setResults(null)` on failure;
`setIsLoading(false)` always). -/
def handleSearchComplete (s : HomeState) : FetchOutcome → HomeState
  | .ok data => { s with results := some data, isLoading := false }
  | .httpError =>
      { s with error := some "Search failed. Please try again.", results := none, isLoading := false }
  | .thrown msg => { s with error := some msg, results := none, isLoading := false }
  | .thrownNonError =>
      { s with error := some "An unexpected error occurred", results := none, isLoading := false }

/-- `toggleSourceType` of the `Home` component:
`prev.includes(type) ? prev.filter(t => t !== type) : [...prev, type]`. -/
def toggleSourceType (prev : List String) (type : String) : List String :=
  if prev.contains type then prev.filter (fun t => t ≠ type) else prev ++ [type]

/-- The fixed `loadingMessages` array of the `Home` component. -/
def loadingMessages : List String :=
  [ "INITIALIZING SEARCH PROTOCOL..."
  , "BYPASSING KNOWLEDGE BARRIERS..."
  , "QUERYING GLOBAL DATA VECTORS..."
  , "HARVESTING UNSTRUCTURED EVIDENCE..."
  , "DECODING SOURCE CREDIBILITY..."
  , "AI MATRIX ANALYSIS IN PROGRESS..."
  , "MAPPING DATA RELATIONSHIPS..."
  , "FINALIZING EVIDENCE SYNTHESIS..." ]

/-- Interval of the rotator's `setInterval`, in milliseconds. -/
def rotatorIntervalMs : Nat := 2000

/-- One timer tick of the rotator effect:
`index = (index + 1) % loadingMessages.length`. -/
def rotatorStep (index : Nat) : Nat :=
  (index + 1) % loadingMessages.length

/-- The rotator's message index after `n` elapsed ticks of the interval,
counted from (re-)entering the loading state: the effect starts at
`index = 0` (and shows `loadingMessages[0]` immediately), then applies
`rotatorStep` every `rotatorIntervalMs` milliseconds. -/
def rotatorIndexAfter : Nat → Nat
  | 0 => 0
  | n + 1 => rotatorStep (rotatorIndexAfter n)

/-- The message the rotator displays after `n` elapsed ticks. -/
def rotatorMessageAfter (n : Nat) : String :=
  loadingMessages.getD (rotatorIndexAfter n) ""

/-- The rotator's timer handle as a function of `isLoading`: the effect
installs an interval (at message index `0`) exactly when `isLoading` is
true, and its cleanup clears the interval on any exit from loading. -/
def rotatorTimer (isLoading : Bool) : Option Nat :=
  if isLoading then some 0 else none

/-- How the source-type catalog fetch on mount can settle. -/
inductive CatalogOutcome where
  | ok (types : List SourceType)
  | failure (err : String)
  deriving Repr, DecidableEq

/-- The catalog effect's state update: `setSourceTypes(data.source_types)`
on success; no state change in the `.catch` branch. -/
def applyCatalogOutcome (s : HomeState) : CatalogOutcome → HomeState
  | .ok types => { s with sourceTypes := types }
  | .failure _ => s

/-- What the catalog effect writes to the developer console:
`console.error('Failed to fetch source types:', err)` on failure,
nothing on success. -/
def catalogConsoleErrors : CatalogOutcome → List String
  | .ok _ => []
  | .failure err => ["Failed to fetch source types: " ++ err]

/-- The conditionally rendered regions of the `Home` component's JSX. -/
structure RenderModel where
  filterSectionShown : Bool
  loadingShown : Bool
  errorBanner : Option String
  resultsHeader : Option (Nat × String)
  renderedCards : List EvidenceCardData
  emptyResultsShown : Bool
  initialEmptyShown : Bool
  deriving Repr, DecidableEq

/-- The render function of the `Home` component, restricted to its
conditional structure: filter section iff `sourceTypes.length > 0`,
loading block iff `isLoading`, error banner iff `error` is set, results
section iff `results && !isLoading` (with one `EvidenceCard` per element
of `evidence_cards`, or the no-evidence empty state), initial empty state
iff `!hasSearched && !isLoading`. -/
def renderHome (s : HomeState) : RenderModel :=
  { filterSectionShown := s.sourceTypes.length > 0
  , loadingShown := s.isLoading
  , errorBanner := s.error
  , resultsHeader :=
      match s.results with
      | some r => if s.isLoading then none else some (r.total_results, r.query)
      | none => none
  , renderedCards :=
      match s.results with
      | some r =>
          if s.isLoading then []
          else if r.evidence_cards.length > 0 then r.evidence_cards else []
      | none => []
  , emptyResultsShown :=
      match s.results with
      | some r => !s.isLoading && r.evidence_cards.length == 0
      | none => false
  , initialEmptyShown := !s.hasSearched && !s.isLoading }

end EvidenceFinder

namespace EvidenceFinder

/-! Helper lemmas about first-occurrence splitting. -/

/-- If `pat` is a Boolean prefix of `s` then `s` decomposes as `pat`
followed by the remainder of `s`. -/
theorem isPrefixOf_append_drop {pat s : List Char} (h : pat.isPrefixOf s = true) :
    s = pat ++ s.drop pat.length := by
  have h' : pat <+: s := ( List.isPrefixOf_iff_prefix).mp h
  exact (List.prefix_iff_eq_append.mp h').symm

/-- Soundness of `splitFirst`: a successful split decomposes the input
around an occurrence of the pattern. -/
theorem splitFirst_eq_some {pat : List Char} {s pre post : List Char}
    (h : splitFirst pat s = some (pre, post)) : s = pre ++ pat ++ post := by
  induction s generalizing pre post with
  | nil =>
    simp only [splitFirst] at h
    split at h
    · next hpat =>
      cases h
      simp [hpat]
    · cases h
  | cons c rest ih =>
    simp only [splitFirst] at h
    split at h
    · next hpre =>
      cases h
      simpa using isPrefixOf_append_drop hpre
    · cases hrest : splitFirst pat rest with
      | none => rw [hrest] at h; cases h
      | some pq =>
        obtain ⟨p, q⟩ := pq
        rw [hrest] at h
        cases h
        simp [ih hrest]

/-- Completeness of `splitFirst` for a one-character pattern: the split
lands exactly on the first occurrence of the character. -/
theorem splitFirst_singleton_of_not_mem {c : Char} {a : List Char} (b : List Char)
    (h : c ∉ a) : splitFirst [c] (a ++ c :: b) = some (a, b) := by
  induction a with
  | nil => simp [splitFirst, List.isPrefixOf]
  | cons d a ih =>
    rw [List.mem_cons, not_or] at h
    obtain ⟨hcd, hca⟩ := h
    simp [splitFirst, List.isPrefixOf, hcd, ih hca]

/-! Claim theorems. -/

/-- C1 (counterexample): `getDomain` does not strip only a *leading*
`"www."` prefix — it replaces the first occurrence of `"www."` anywhere in
the host.  On `"https://foo.www.example.com/x"` the host is
`"foo.www.example.com"`, which has no leading `"www."`, yet `getDomain`
returns `"foo.example.com"` rather than the host unchanged. -/
theorem c1_domainOf_counterexample :
    urlHostname "https://foo.www.example.com/x" = some "foo.www.example.com" ∧
    getDomain "https://foo.www.example.com/x" = "foo.example.com" ∧
    stripLeadingWWW "foo.www.example.com" = "foo.www.example.com" ∧
    getDomain "https://foo.www.example.com/x" ≠ stripLeadingWWW "foo.www.example.com" :=
  ⟨by decide, by decide, by decide, by decide⟩

/-- C1 (amended): for every link, `getDomain` parses the link as a URL and
returns its host with the *first occurrence* of `"www."` removed, wherever
it occurs (which in particular strips a leading `"www."` prefix); for
every link that is not a parseable URL it returns the literal string
`"source"` and never throws.  `getDomain "https://www.example.com/x" =
"example.com"` and `getDomain "not a url" = "source"`. -/
theorem c1_domainOf_amended :
    (∀ link : String, urlHostname link = none → getDomain link = "source") ∧
    (∀ link host : String, urlHostname link = some host →
      getDomain link = jsReplaceFirst host "www." "") ∧
    (∀ host pre post : List Char, splitFirst "www.".data host = some (pre, post) →
      host = pre ++ "www.".data ++ post ∧ replaceFirstL host "www.".data [] = pre ++ post) ∧
    (∀ host : List Char, splitFirst "www.".data host = none →
      replaceFirstL host "www.".data [] = host) ∧
    getDomain "https://www.example.com/x" = "example.com" ∧
    getDomain "not a url" = "source" := by
  refine ⟨?_, ?_, ?_, ?_, by decide, by decide⟩
  · intro link h
    simp [getDomain, h]
  · intro link host h
    simp [getDomain, h]
  · intro host pre post h
    refine ⟨splitFirst_eq_some h, ?_⟩
    simp [replaceFirstL, h]
  · intro host h
    simp [replaceFirstL, h]

/-- C1 witness: the amended theorem applied at concrete inputs. -/
theorem c1_domainOf_amended_witness :
    getDomain "not a url" = "source" ∧
    getDomain "https://www.example.com/x" = jsReplaceFirst "www.example.com" "www." "" :=
  ⟨c1_domainOf_amended.1 "not a url" (by decide),
   c1_domainOf_amended.2.1 "https://www.example.com/x" "www.example.com" (by decide)⟩

/-- C10: the rendered source-type badge text is the `source_type` string
with only the first underscore replaced by a space; every underscore after
the first is kept (in particular `"peer_reviewed_journal"` renders as
`"peer reviewed_journal"`), and a string with no underscore is rendered
unchanged. -/
theorem c10_sourceBadgeText :
    (∀ a b : List Char, '_' ∉ a →
      sourceBadgeText (String.mk (a ++ '_' :: b)) = String.mk (a ++ ' ' :: b)) ∧
    (∀ source_type : String, '_' ∉ source_type.data → sourceBadgeText source_type = source_type) ∧
    sourceBadgeText "peer_reviewed_journal" = "peer reviewed_journal" ∧
    sourceBadgeText "news" = "news" := by
  refine ⟨?_, ?_, by decide, by decide⟩
  · intro a b h
    have hsp : splitFirst ['_'] (a ++ '_' :: b) = some (a, b) :=
      splitFirst_singleton_of_not_mem b h
    simp [sourceBadgeText, jsReplaceFirst, replaceFirstL, hsp]
  · intro st h
    cases hsp : splitFirst ['_'] st.data with
    | none => simp [sourceBadgeText, jsReplaceFirst, replaceFirstL, hsp]
    | some pq =>
      obtain ⟨pre, post⟩ := pq
      exfalso
      have := splitFirst_eq_some hsp
      exact h (by simp [this])

/-- C10 witness: the no-underscore case of the theorem at a concrete
badge. -/
theorem c10_sourceBadgeText_witness :
    sourceBadgeText "news" = "news" :=
  c10_sourceBadgeText.2.1 "news" (by decide)

/-- C2: when the trimmed query is empty (empty or whitespace-only),
`handleSearch` is a no-op: it performs no network call (`none` request)
and leaves the whole state — in particular `isLoading`, `error`,
`results` and `hasSearched` — unchanged. -/
theorem c2_empty_query_noop (s : HomeState) (h : jsTrim s.query = "") :
    handleSearchStart s = (s, none) := by
  simp [handleSearchStart, h]

/-- C2 witness: the no-op theorem at a whitespace-only query. -/
theorem c2_empty_query_noop_witness :
    jsTrim "   " = "" ∧
    handleSearchStart { initialHomeState with query := "   " } =
      ({ initialHomeState with query := "   " }, none) :=
  ⟨by decide, c2_empty_query_noop { initialHomeState with query := "   " } (by decide)⟩

/-- C3: a submission with a non-empty trimmed query issues exactly one
request, whose body is the trimmed query together with the selected
filters when at least one is selected and `null` (`none`) otherwise; with
no filters selected the body carries `source_types := none`, never an
empty list — as in the concrete scenario of submitting
`"Is coffee healthy?"` with no filters. -/
theorem c3_request_body :
    (∀ s : HomeState, jsTrim s.query ≠ "" →
      (handleSearchStart s).2 =
        some { query := jsTrim s.query
             , source_types :=
                 if s.selectedTypes = [] then none else some s.selectedTypes }) ∧
    (handleSearchStart { initialHomeState with query := "Is coffee healthy?" }).2 =
      some { query := "Is coffee healthy?", source_types := none } := by
  constructor
  · intro s h
    simp only [handleSearchStart, if_neg h]
    cases s.selectedTypes <;> simp
  · decide

/-- C3 witness: the universally quantified part applied at the concrete
scenario state. -/
theorem c3_request_body_witness :
    (handleSearchStart { initialHomeState with query := " Is coffee healthy? " }).2 =
      some { query := "Is coffee healthy?", source_types := none } := by
  have h := c3_request_body.1 { initialHomeState with query := " Is coffee healthy? " }
    (by decide)
  simpa using h

/-- C4: every non-success fetch outcome (non-2xx response or a thrown
transport error) leaves the session in an error state: `results` is
cleared, loading ends, and `error` carries a message that is exactly
`"Search failed. Please try again."` in the non-2xx case (a thrown
`Error`'s more specific message is used when available). -/
theorem c4_error_state (s : HomeState) (o : FetchOutcome)
    (h : ∀ d, o ≠ FetchOutcome.ok d) :
    ∃ msg,
      handleSearchComplete s o =
        { s with error := some msg, results := none, isLoading := false } ∧
      (o = FetchOutcome.httpError → msg = "Search failed. Please try again.") ∧
      (∀ m, o = FetchOutcome.thrown m → msg = m) := by
  cases o with
  | ok d => exact absurd rfl (h d)
  | httpError =>
    refine ⟨_, rfl, fun _ => rfl, ?_⟩
    intro m hm
    cases hm
  | thrown m =>
    refine ⟨m, rfl, ?_, ?_⟩
    · intro hm; cases hm
    · intro m' hm
      cases hm
      rfl
  | thrownNonError =>
    refine ⟨_, rfl, ?_, ?_⟩
    · intro hm; cases hm
    · intro m hm; cases hm

/-- C4 witness: a non-2xx response on the initial state yields the fixed
error banner with no results. -/
theorem c4_error_state_witness :
    ∃ msg,
      handleSearchComplete initialHomeState FetchOutcome.httpError =
        { initialHomeState with error := some msg, results := none, isLoading := false } ∧
      (FetchOutcome.httpError = FetchOutcome.httpError →
        msg = "Search failed. Please try again.") ∧
      (∀ m, FetchOutcome.httpError = FetchOutcome.thrown m → msg = m) :=
  c4_error_state initialHomeState FetchOutcome.httpError (fun _ h => nomatch h)

/-- The rotator's index after `n` ticks is `n` modulo the length of the
message list. -/
theorem rotatorIndexAfter_eq_mod (n : Nat) : rotatorIndexAfter n = n % 8 := by
  induction n with
  | zero => rfl
  | succ n ih =>
    simp only [rotatorIndexAfter, rotatorStep, ih, loadingMessages, List.length]
    omega

/-- C5: while loading, the rotator shows the first message of the fixed
eight-element list immediately (tick `0`), advances one message per
`2000` ms tick with wrap-around after the eighth, and restarting the
loading state resets the rotation to the first message (the timer handle
exists exactly while `isLoading`, starting again at index `0`). -/
theorem c5_rotator :
    loadingMessages.length = 8 ∧
    rotatorIntervalMs = 2000 ∧
    rotatorMessageAfter 0 = "INITIALIZING SEARCH PROTOCOL..." ∧
    (∀ n : Nat, rotatorMessageAfter n = loadingMessages.getD (n % 8) "") ∧
    (∀ n : Nat, rotatorMessageAfter (n + 8) = rotatorMessageAfter n) ∧
    rotatorTimer true = some 0 ∧
    rotatorTimer false = none := by
  refine ⟨rfl, rfl, rfl, ?_, ?_, rfl, rfl⟩
  · intro n
    simp [rotatorMessageAfter, rotatorIndexAfter_eq_mod]
  · intro n
    simp [rotatorMessageAfter, rotatorIndexAfter_eq_mod, Nat.add_mod_right]

/-- C6: `getRelationIcon` agrees everywhere with the spec's priority-table
scan (lower-case the input, first matching substring among
support/contradict/context/neutral wins, generic link symbol otherwise);
in particular a relation containing both "support" and "contradict" maps
to the check symbol. -/
theorem c6_relationIcon :
    (∀ relation : String, getRelationIcon relation = relationIconSpec relation) ∧
    getRelationIcon "This supports the claim" = "✓" ∧
    getRelationIcon "Partially contradicts" = "✗" ∧
    getRelationIcon "Supported yet contradicted" = "✓" ∧
    getRelationIcon "background information" = "🔗" := by
  refine ⟨?_, by decide, by decide, by decide, by decide⟩
  intro r
  cases h1 : strContains (jsToLowerCase r) "support" <;>
    cases h2 : strContains (jsToLowerCase r) "contradict" <;>
      cases h3 : strContains (jsToLowerCase r) "context" <;>
        cases h4 : strContains (jsToLowerCase r) "neutral" <;>
          simp [getRelationIcon, relationIconSpec, relationTable, List.find?, h1, h2, h3, h4]

/-- C7: for every successful response held in the state, the results
section renders exactly the response's `evidence_cards`, in order — so
exactly `evidence_cards.length` cards — and the rendered cards do not
depend on `total_results` in any way. -/
theorem c7_rendered_cards (s : HomeState) (r : SearchResponse)
    (hres : s.results = some r) (hload : s.isLoading = false) :
    (renderHome s).renderedCards = r.evidence_cards ∧
    (renderHome s).renderedCards.length = r.evidence_cards.length ∧
    (∀ n : Nat,
      (renderHome { s with results := some { r with total_results := n } }).renderedCards =
        r.evidence_cards) := by
  have key : ∀ cards : List EvidenceCardData, (if cards.length > 0 then cards else []) = cards := by
    intro cards
    cases cards <;> simp
  refine ⟨?_, ?_, ?_⟩
  · simp [renderHome, hres, hload, key]
  · simp [renderHome, hres, hload, key]
  · intro n
    simp [renderHome, hload, key]

/-- A concrete evidence card used by witnesses below. -/
def witnessCard (i : String) : EvidenceCardData :=
  { id := i
  , title := "Coffee and health"
  , link := "https://www.example.com/coffee"
  , snippet := "snippet"
  , description := "description"
  , relation_to_claim := "supports"
  , source_type := "peer_reviewed_journal"
  , relevance_score := (87 : Rat) / 100 }

/-- A concrete successful response whose `total_results` (5) differs from
the number of returned cards (2). -/
def witnessResponse : SearchResponse :=
  { query := "Is coffee healthy?"
  , evidence_cards := [witnessCard "a", witnessCard "b"]
  , total_results := 5 }

/-- C7 witness: with `total_results = 5` but two cards, exactly two cards
are rendered. -/
theorem c7_rendered_cards_witness :
    (renderHome { initialHomeState with results := some witnessResponse }).renderedCards =
      witnessResponse.evidence_cards ∧
    (renderHome { initialHomeState with results := some witnessResponse
                }).renderedCards.length = witnessResponse.evidence_cards.length ∧
    witnessResponse.total_results = 5 ∧
    witnessResponse.evidence_cards.length = 2 := by
  have h := c7_rendered_cards { initialHomeState with results := some witnessResponse }
    witnessResponse rfl rfl
  exact ⟨h.1, h.2.1, rfl, rfl⟩

/-- C8: when the source-type catalog fetch fails, the state is unchanged
(catalog stays empty), a console error is logged, the filter section is
omitted from the render, no error banner appears, and a subsequent search
with no filters still issues its request with `source_types := none`. -/
theorem c8_catalog_failure (s : HomeState) (err : String)
    (hcat : s.sourceTypes = []) (herr : s.error = none) :
    applyCatalogOutcome s (CatalogOutcome.failure err) = s ∧
    (applyCatalogOutcome s (CatalogOutcome.failure err)).sourceTypes = [] ∧
    catalogConsoleErrors (CatalogOutcome.failure err) ≠ [] ∧
    (renderHome (applyCatalogOutcome s (CatalogOutcome.failure err))).filterSectionShown = false ∧
    (renderHome (applyCatalogOutcome s (CatalogOutcome.failure err))).errorBanner = none ∧
    (∀ q : String, jsTrim q ≠ "" →
      (handleSearchStart
          { applyCatalogOutcome s (CatalogOutcome.failure err) with
              query := q, selectedTypes := [] }).2 =
        some { query := jsTrim q, source_types := none }) := by
  refine ⟨rfl, ?_, by simp [catalogConsoleErrors], ?_, ?_, ?_⟩
  · simpa [applyCatalogOutcome] using hcat
  · simp [renderHome, applyCatalogOutcome, hcat]
  · simp [renderHome, applyCatalogOutcome, herr]
  · intro q hq
    simp [applyCatalogOutcome, handleSearchStart, hq]

/-- C8 witness: a failed catalog fetch on the initial state — no filter
section, no banner, and search still sends `source_types := none`. -/
theorem c8_catalog_failure_witness :
    (renderHome (applyCatalogOutcome initialHomeState
        (CatalogOutcome.failure "TypeError: Failed to fetch"))).filterSectionShown = false ∧
    (renderHome (applyCatalogOutcome initialHomeState
        (CatalogOutcome.failure "TypeError: Failed to fetch"))).errorBanner = none ∧
    (handleSearchStart
        { applyCatalogOutcome initialHomeState
            (CatalogOutcome.failure "TypeError: Failed to fetch") with
            query := "Is coffee healthy?", selectedTypes := [] }).2 =
      some { query := jsTrim "Is coffee healthy?", source_types := none } := by
  have h := c8_catalog_failure initialHomeState "TypeError: Failed to fetch" rfl rfl
  exact ⟨h.2.2.2.1, h.2.2.2.2.1, h.2.2.2.2.2 "Is coffee healthy?" (by decide)⟩

/-- C9: toggling the same filter value twice returns the selected-filter
set to its original contents as a set — membership of every value is
restored (the first toggle removes the value when present or appends it
when absent; the second undoes that). -/
theorem c9_toggle_twice (prev : List String) (v x : String) :
    x ∈ toggleSourceType (toggleSourceType prev v) v ↔ x ∈ prev := by
  unfold toggleSourceType
  by_cases hv : v ∈ prev <;> by_cases hx : x = v <;>
    simp [List.contains, List.elem_eq_mem, hv, hx, List.mem_filter, List.mem_append]

end EvidenceFinder
